import Mathlib

/-!
Verification development for the portfolio stress-testing engine
(`PortfolioStressTester.jsx`).

The core logic is `calculateStressTest` — a pure computation over the
holdings list, the selected scenario key and the portfolio value — and the
`recoveryData` projection built from the resulting final value.  JavaScript
numbers are modelled as exact rationals (`ℚ`); object-keyed factor maps are
modelled as association lists with `List.lookup`.
-/

namespace StressTester

/-- One portfolio row: `{ asset, allocation, volatility, beta }`.
`volatility` and `beta` are carried but never consumed by the computation. -/
structure AssetHolding where
  asset : String
  allocation : ℚ
  volatility : ℚ
  beta : ℚ
deriving Repr, DecidableEq

/-- A stress scenario: display name, description, and the factor map from
asset name to percentage return factor (a JS object, modelled as an
association list). -/
structure Scenario where
  name : String
  description : String
  factors : List (String × ℚ)
deriving Repr, DecidableEq

/-- The static scenario catalog `stressScenarios` from the source, an object
keyed by scenario key. -/
def stressScenarios : List (String × Scenario) :=
  [ ("2008_crisis",
     { name := "2008 Financial Crisis"
       description := "Peak-to-trough decline during 2008-2009"
       factors :=
         [ ("US Large Cap Equity", -37.0)
         , ("US Small Cap Equity", -33.8)
         , ("International Equity", -43.4)
         , ("Bonds", 5.2)
         , ("REITs", -37.7) ] })
  , ("2020_covid",
     { name := "COVID-19 Crash (Q1 2020)"
       description := "Rapid market decline in March 2020"
       factors :=
         [ ("US Large Cap Equity", -19.6)
         , ("US Small Cap Equity", -30.6)
         , ("International Equity", -23.4)
         , ("Bonds", 8.7)
         , ("REITs", -20.2) ] })
  , ("dotcom_crash",
     { name := "Dot-Com Crash (2000-2002)"
       description := "Technology bubble burst"
       factors :=
         [ ("US Large Cap Equity", -49.1)
         , ("US Small Cap Equity", -22.8)
         , ("International Equity", -45.5)
         , ("Bonds", 21.1)
         , ("REITs", 13.9) ] })
  , ("interest_rate_shock",
     { name := "Interest Rate Shock"
       description := "Hypothetical 300bp rate increase"
       factors :=
         [ ("US Large Cap Equity", -15.0)
         , ("US Small Cap Equity", -20.0)
         , ("International Equity", -18.0)
         , ("Bonds", -12.0)
         , ("REITs", -25.0) ] })
  , ("inflation_shock",
     { name := "Inflation Shock"
       description := "Persistent high inflation scenario"
       factors :=
         [ ("US Large Cap Equity", -20.0)
         , ("US Small Cap Equity", -25.0)
         , ("International Equity", -22.0)
         , ("Bonds", -15.0)
         , ("REITs", 10.0) ] })
  ]

/-- One output row pushed onto `results` for every holding. -/
structure AssetImpact where
  asset : String
  allocation : ℚ
  originalValue : ℚ
  stressedValue : ℚ
  dollarChange : ℚ
  percentChange : ℚ
  contributionToLoss : ℚ
deriving Repr, DecidableEq

/-- The `worstAsset` tracker `{ name, loss }`. -/
structure WorstAsset where
  name : String
  loss : ℚ
deriving Repr, DecidableEq

/-- The `bestAsset` tracker `{ name, gain }`. -/
structure BestAsset where
  name : String
  gain : ℚ
deriving Repr, DecidableEq

/-- The `summaryResults` record. -/
structure SummaryResults where
  totalLoss : ℚ
  totalLossPercent : ℚ
  worstAsset : WorstAsset
  bestAsset : BestAsset
  finalValue : ℚ
deriving Repr, DecidableEq

/-- The two pieces of state `calculateStressTest` writes:
`stressResults` and `summaryResults`. -/
structure StressOutput where
  stressResults : List AssetImpact
  summaryResults : SummaryResults
deriving Repr, DecidableEq

/-- Failure mode of `calculateStressTest`.  In the JS source an unknown
scenario key makes `stressScenarios[selectedScenario]` yield `undefined`, and
the subsequent `scenario.factors[...]` dereference inside the loop body throws
a TypeError; we model that failure as this structured error. -/
inductive StressError where
  | unknownScenarioKind
deriving Repr, DecidableEq

/-- The per-iteration accumulator of the `forEach` loop in
`calculateStressTest`: `results`, `totalLoss`, `worstAsset`, `bestAsset`. -/
structure StressState where
  results : List AssetImpact
  totalLoss : ℚ
  worstAsset : WorstAsset
  bestAsset : BestAsset
deriving Repr, DecidableEq

/-- The row computed for one holding in the loop body:
`stressFactor = scenario.factors[asset.asset] || 0`,
`assetValue = portfolioValue * (asset.allocation / 100)`,
`stressedValue = assetValue * (1 + stressFactor / 100)`,
`loss = stressedValue - assetValue`,
`contributionToLoss = (loss / portfolioValue) * 100`. -/
def assetImpact (scenario : Scenario) (portfolioValue : ℚ) (a : AssetHolding) :
    AssetImpact :=
  let stressFactor := (List.lookup a.asset scenario.factors).getD 0
  let assetValue := portfolioValue * (a.allocation / 100)
  let stressedValue := assetValue * (1 + stressFactor / 100)
  let loss := stressedValue - assetValue
  { asset := a.asset
    allocation := a.allocation
    originalValue := assetValue
    stressedValue := stressedValue
    dollarChange := loss
    percentChange := stressFactor
    contributionToLoss := loss / portfolioValue * 100 }

/-- One iteration of the `forEach` body: accumulate `totalLoss`, update the
`worstAsset` tracker when `loss < worstAsset.loss`, the `bestAsset` tracker
when `loss > bestAsset.gain`, and push the result row. -/
def stressStep (scenario : Scenario) (portfolioValue : ℚ)
    (st : StressState) (a : AssetHolding) : StressState :=
  let impact := assetImpact scenario portfolioValue a
  let loss := impact.dollarChange
  { results := st.results ++ [impact]
    totalLoss := st.totalLoss + loss
    worstAsset :=
      if loss < st.worstAsset.loss then { name := a.asset, loss := loss }
      else st.worstAsset
    bestAsset :=
      if loss > st.bestAsset.gain then { name := a.asset, gain := loss }
      else st.bestAsset }

/-- Loop initial state: empty results, `totalLoss = 0`, and the two empty
sentinels `{name:"", loss:0}` / `{name:"", gain:0}`. -/
def initState : StressState :=
  { results := []
    totalLoss := 0
    worstAsset := { name := "", loss := 0 }
    bestAsset := { name := "", gain := 0 } }

/-- `calculateStressTest` from the source.  When the selected key is absent
from the catalog, `scenario` is `undefined` and the `scenario.factors`
dereference throws — but only inside the `forEach` body, so the failure is
raised iff the holdings list is nonempty; an empty holdings list with an
unknown key runs the (empty) loop and still produces the all-zero summary. -/
def calculateStressTest (selectedScenario : String)
    (holdings : List AssetHolding) (portfolioValue : ℚ) :
    Except StressError StressOutput :=
  match List.lookup selectedScenario stressScenarios with
  | some scenario =>
    let st := List.foldl (stressStep scenario portfolioValue) initState holdings
    .ok { stressResults := st.results
          summaryResults :=
            { totalLoss := st.totalLoss
              totalLossPercent := st.totalLoss / portfolioValue * 100
              worstAsset := st.worstAsset
              bestAsset := st.bestAsset
              finalValue := portfolioValue + st.totalLoss } }
  | none =>
    match holdings with
    | [] =>
      .ok { stressResults := []
            summaryResults :=
              { totalLoss := 0
                totalLossPercent := 0 / portfolioValue * 100
                worstAsset := { name := "", loss := 0 }
                bestAsset := { name := "", gain := 0 }
                finalValue := portfolioValue + 0 } }
    | _ :: _ => .error .unknownScenarioKind

/-- One point of the recovery chart data. -/
structure RecoveryPoint where
  months : ℕ
  value : ℚ
  recovered : Bool
deriving Repr, DecidableEq

/-- The `recoveryData` loop from the source: for `months = 0` to `60`
inclusive push `{ months, value := finalValue * (1 + 0.08/12)^months,
recovered := value >= portfolioValue }`.  `finalValue` is
`summaryResults.finalValue` and `portfolioValue` the pre-shock base value. -/
def recoveryData (finalValue portfolioValue : ℚ) : List RecoveryPoint :=
  (List.range 61).map fun months =>
    let recoveryValue := finalValue * (1 + (0.08 : ℚ) / 12) ^ months
    { months := months
      value := recoveryValue
      recovered := decide (portfolioValue ≤ recoveryValue) }

/-- The default holdings list from the source component state. -/
def defaultHoldings : List AssetHolding :=
  [ { asset := "US Large Cap Equity", allocation := 40, volatility := 16, beta := 1.0 }
  , { asset := "US Small Cap Equity", allocation := 10, volatility := 22, beta := 1.2 }
  , { asset := "International Equity", allocation := 20, volatility := 18, beta := 0.9 }
  , { asset := "Bonds", allocation := 25, volatility := 4, beta := 0.1 }
  , { asset := "REITs", allocation := 5, volatility := 24, beta := 0.8 } ]

/-- The `worstAsset` scan of the loop, isolated on the list of result rows:
replace the incumbent exactly when the row's `dollarChange` is strictly below
the incumbent's `loss`. -/
def scanWorst (w : WorstAsset) : List AssetImpact → WorstAsset
  | [] => w
  | imp :: rest =>
    scanWorst
      (if imp.dollarChange < w.loss then { name := imp.asset, loss := imp.dollarChange }
       else w) rest

/-- The `bestAsset` scan of the loop, isolated on the list of result rows:
replace the incumbent exactly when the row's `dollarChange` is strictly above
the incumbent's `gain`. -/
def scanBest (b : BestAsset) : List AssetImpact → BestAsset
  | [] => b
  | imp :: rest =>
    scanBest
      (if imp.dollarChange > b.gain then { name := imp.asset, gain := imp.dollarChange }
       else b) rest

/-- `imp` is strictly below `threshold` and no row of `ls` is below `imp`. -/
def isStrictMin (threshold : ℚ) (ls : List AssetImpact) (imp : AssetImpact) :
    Bool :=
  decide (imp.dollarChange < threshold) &&
    ls.all (fun j => decide (imp.dollarChange ≤ j.dollarChange))

/-- Declarative reading of the spec's `worstAsset` description: the first row
whose `dollarChange` is negative and is a minimum of all rows' `dollarChange`
(so ties keep the earlier asset), or the empty sentinel when no row has a
negative `dollarChange`.  Stated from the spec's words for comparison against
the scan implemented by the code. -/
def worstAssetSpec (impacts : List AssetImpact) : WorstAsset :=
  match impacts.find? (isStrictMin 0 impacts) with
  | some imp => { name := imp.asset, loss := imp.dollarChange }
  | none => { name := "", loss := 0 }

/-- The value `calculateStressTest` produces on a key that is present in the
catalog, phrased denotationally (rows as a map, total as a sum, trackers as
scans); proved equal to the fold below in `calculateStressTest_ok`. -/
def okOutput (sc : Scenario) (holdings : List AssetHolding) (pv : ℚ) :
    StressOutput :=
  let impacts := holdings.map (assetImpact sc pv)
  let total := (impacts.map AssetImpact.dollarChange).sum
  { stressResults := impacts
    summaryResults :=
      { totalLoss := total
        totalLossPercent := total / pv * 100
        worstAsset := scanWorst { name := "", loss := 0 } impacts
        bestAsset := scanBest { name := "", gain := 0 } impacts
        finalValue := pv + total } }

/-- The all-zero output of a run whose loop body never executes. -/
def emptyOkOutput (pv : ℚ) : StressOutput :=
  { stressResults := []
    summaryResults :=
      { totalLoss := 0
        totalLossPercent := 0 / pv * 100
        worstAsset := { name := "", loss := 0 }
        bestAsset := { name := "", gain := 0 }
        finalValue := pv + 0 } }

end StressTester

namespace StressTester

/-- The row built by `assetImpact` carries the holding's name. -/
@[simp]
theorem assetImpact_asset (sc : Scenario) (pv : ℚ) (a : AssetHolding) :
    (assetImpact sc pv a).asset = a.asset := rfl

/-- The row built by `assetImpact` carries the holding's allocation. -/
@[simp]
theorem assetImpact_allocation (sc : Scenario) (pv : ℚ) (a : AssetHolding) :
    (assetImpact sc pv a).allocation = a.allocation := rfl

/-- `percentChange` is the raw looked-up factor (defaulting to 0). -/
theorem assetImpact_percentChange (sc : Scenario) (pv : ℚ) (a : AssetHolding) :
    (assetImpact sc pv a).percentChange =
      (List.lookup a.asset sc.factors).getD 0 := rfl

/-- `originalValue` as computed by the loop body. -/
theorem assetImpact_originalValue (sc : Scenario) (pv : ℚ) (a : AssetHolding) :
    (assetImpact sc pv a).originalValue = pv * (a.allocation / 100) := rfl

/-- `stressedValue` as computed by the loop body. -/
theorem assetImpact_stressedValue (sc : Scenario) (pv : ℚ) (a : AssetHolding) :
    (assetImpact sc pv a).stressedValue =
      pv * (a.allocation / 100) *
        (1 + ((List.lookup a.asset sc.factors).getD 0) / 100) := rfl

/-- `dollarChange` as computed by the loop body. -/
theorem assetImpact_dollarChange (sc : Scenario) (pv : ℚ) (a : AssetHolding) :
    (assetImpact sc pv a).dollarChange =
      pv * (a.allocation / 100) *
        (1 + ((List.lookup a.asset sc.factors).getD 0) / 100) -
      pv * (a.allocation / 100) := rfl

/-- `contributionToLoss` as computed by the loop body. -/
theorem assetImpact_contributionToLoss (sc : Scenario) (pv : ℚ) (a : AssetHolding) :
    (assetImpact sc pv a).contributionToLoss =
      (assetImpact sc pv a).dollarChange / pv * 100 := rfl

/-- Characterization of the `forEach` fold: the result rows are `assetImpact`
mapped over the holdings in order, `totalLoss` accumulates their
`dollarChange`, and the two trackers are the corresponding scans. -/
theorem foldl_stressStep_eq (scenario : Scenario) (pv : ℚ) :
    ∀ (holdings : List AssetHolding) (st : StressState),
      List.foldl (stressStep scenario pv) st holdings =
        { results := st.results ++ holdings.map (assetImpact scenario pv)
          totalLoss := st.totalLoss +
            (holdings.map fun a => (assetImpact scenario pv a).dollarChange).sum
          worstAsset := scanWorst st.worstAsset (holdings.map (assetImpact scenario pv))
          bestAsset := scanBest st.bestAsset (holdings.map (assetImpact scenario pv)) }
  | [], st => by simp [scanWorst, scanBest]
  | a :: as, st => by
    rw [List.foldl_cons, foldl_stressStep_eq scenario pv as]
    simp [stressStep, scanWorst, scanBest, add_assoc]

/-- `calculateStressTest` on a key present in the catalog returns the
denotational `okOutput`. -/
theorem calculateStressTest_ok (key : String) (sc : Scenario)
    (holdings : List AssetHolding) (pv : ℚ)
    (hsc : List.lookup key stressScenarios = some sc) :
    calculateStressTest key holdings pv = .ok (okOutput sc holdings pv) := by
  simp [calculateStressTest, hsc, foldl_stressStep_eq, initState, okOutput,
    List.map_map, Function.comp_def]

/-- Elimination form for a successful run: either the key resolved to a
scenario, or the key was unknown and the holdings list was empty. -/
theorem ok_cases {key : String} {holdings : List AssetHolding} {pv : ℚ}
    {out : StressOutput}
    (h : calculateStressTest key holdings pv = .ok out) :
    (∃ sc, List.lookup key stressScenarios = some sc ∧
      out = okOutput sc holdings pv) ∨
    (List.lookup key stressScenarios = none ∧ holdings = [] ∧
      out = emptyOkOutput pv) := by
  cases hsc : List.lookup key stressScenarios with
  | some sc =>
    rw [calculateStressTest_ok key sc holdings pv hsc] at h
    exact Or.inl ⟨sc, rfl, (Except.ok.inj h).symm⟩
  | none =>
    unfold calculateStressTest at h
    rw [hsc] at h
    match holdings, h with
    | [], h => exact Or.inr ⟨rfl, rfl, (Except.ok.inj h).symm⟩

/-- Distributing `/ c * 100` over a list sum. -/
theorem sum_map_div_mul {α : Type} (f : α → ℚ) (c : ℚ) :
    ∀ l : List α, (l.map fun a => f a / c * 100).sum = (l.map f).sum / c * 100
  | [] => by simp
  | a :: as => by simp [sum_map_div_mul f c as, add_div, add_mul]

/-- C1: for every portfolio, scenario and numeric base value, the per-asset
`contributionToLoss` values of a successful run sum exactly to the summary's
`totalLossPercent`. -/
theorem claim1_contributions_sum_to_totalLossPercent (key : String)
    (holdings : List AssetHolding) (pv : ℚ) (out : StressOutput)
    (h : calculateStressTest key holdings pv = .ok out) :
    (out.stressResults.map AssetImpact.contributionToLoss).sum =
      out.summaryResults.totalLossPercent := by
  rcases ok_cases h with ⟨sc, -, rfl⟩ | ⟨-, -, rfl⟩
  · simp only [okOutput, List.map_map, Function.comp_def,
      assetImpact_contributionToLoss]
    rw [sum_map_div_mul (fun a => (assetImpact sc pv a).dollarChange) pv holdings]
  · simp [emptyOkOutput]

/-- Witness for C1 at the COVID scenario on a one-asset Bonds portfolio. -/
theorem claim1_contributions_sum_witness :
    calculateStressTest "2020_covid"
        [{ asset := "Bonds", allocation := 25, volatility := 4, beta := 0.1 }]
        1000 =
      .ok { stressResults :=
              [{ asset := "Bonds", allocation := 25, originalValue := 250,
                 stressedValue := 1087/4, dollarChange := 87/4,
                 percentChange := 87/10, contributionToLoss := 87/40 }]
            summaryResults :=
              { totalLoss := 87/4, totalLossPercent := 87/40
                worstAsset := { name := "", loss := 0 }
                bestAsset := { name := "Bonds", gain := 87/4 }
                finalValue := 4087/4 } } ∧
    (([{ asset := "Bonds", allocation := 25, originalValue := 250,
         stressedValue := 1087/4, dollarChange := 87/4,
         percentChange := 87/10, contributionToLoss := 87/40 }] :
        List AssetImpact).map AssetImpact.contributionToLoss).sum = 87/40 := by
  have h : calculateStressTest "2020_covid"
      [{ asset := "Bonds", allocation := 25, volatility := 4, beta := 0.1 }]
      1000 =
      .ok { stressResults :=
              [{ asset := "Bonds", allocation := 25, originalValue := 250,
                 stressedValue := 1087/4, dollarChange := 87/4,
                 percentChange := 87/10, contributionToLoss := 87/40 }]
            summaryResults :=
              { totalLoss := 87/4, totalLossPercent := 87/40
                worstAsset := { name := "", loss := 0 }
                bestAsset := { name := "Bonds", gain := 87/4 }
                finalValue := 4087/4 } } := by
    simp [calculateStressTest, stressScenarios, initState, stressStep,
      assetImpact, List.lookup]
    norm_num
  exact ⟨h, claim1_contributions_sum_to_totalLossPercent _ _ _ _ h⟩

/-- C2: on every successful run, `finalValue` is exactly the base value plus
`totalLoss`, and `totalLoss` is exactly the sum of the rows' `dollarChange`. -/
theorem claim2_finalValue_invariant (key : String)
    (holdings : List AssetHolding) (pv : ℚ) (out : StressOutput)
    (h : calculateStressTest key holdings pv = .ok out) :
    out.summaryResults.finalValue = pv + out.summaryResults.totalLoss ∧
    out.summaryResults.totalLoss =
      (out.stressResults.map AssetImpact.dollarChange).sum := by
  rcases ok_cases h with ⟨sc, -, rfl⟩ | ⟨-, -, rfl⟩
  · simp [okOutput]
  · simp [emptyOkOutput]

/-- Witness for C2 at the dot-com scenario on a one-asset Bonds portfolio. -/
theorem claim2_finalValue_invariant_witness :
    calculateStressTest "dotcom_crash"
        [{ asset := "Bonds", allocation := 25, volatility := 4, beta := 0.1 }]
        2000 =
      .ok { stressResults :=
              [{ asset := "Bonds", allocation := 25, originalValue := 500,
                 stressedValue := 1211/2, dollarChange := 211/2,
                 percentChange := 211/10, contributionToLoss := 211/40 }]
            summaryResults :=
              { totalLoss := 211/2, totalLossPercent := 211/40
                worstAsset := { name := "", loss := 0 }
                bestAsset := { name := "Bonds", gain := 211/2 }
                finalValue := 4211/2 } } ∧
    (4211/2 : ℚ) = 2000 + 211/2 := by
  have h : calculateStressTest "dotcom_crash"
      [{ asset := "Bonds", allocation := 25, volatility := 4, beta := 0.1 }]
      2000 =
      .ok { stressResults :=
              [{ asset := "Bonds", allocation := 25, originalValue := 500,
                 stressedValue := 1211/2, dollarChange := 211/2,
                 percentChange := 211/10, contributionToLoss := 211/40 }]
            summaryResults :=
              { totalLoss := 211/2, totalLossPercent := 211/40
                worstAsset := { name := "", loss := 0 }
                bestAsset := { name := "Bonds", gain := 211/2 }
                finalValue := 4211/2 } } := by
    simp [calculateStressTest, stressScenarios, initState, stressStep,
      assetImpact, List.lookup]
    norm_num
  refine ⟨h, ?_⟩
  have h2 := (claim2_finalValue_invariant _ _ _ _ h).1
  simpa using h2

/-- C3: a holding whose name is absent from the scenario's factor map is
treated with factor 0: its row has `dollarChange = 0` and
`stressedValue = originalValue`. -/
theorem claim3_zero_factor_passthrough (key : String) (sc : Scenario)
    (holdings : List AssetHolding) (pv : ℚ) (out : StressOutput)
    (hsc : List.lookup key stressScenarios = some sc)
    (h : calculateStressTest key holdings pv = .ok out)
    (i : ℕ) (hi : i < holdings.length)
    (habs : List.lookup (holdings.get ⟨i, hi⟩).asset sc.factors = none) :
    ∃ imp, out.stressResults.get? i = some imp ∧
      imp.dollarChange = 0 ∧ imp.stressedValue = imp.originalValue := by
  rw [calculateStressTest_ok key sc holdings pv hsc] at h
  obtain rfl : out = okOutput sc holdings pv := (Except.ok.inj h).symm
  refine ⟨assetImpact sc pv (holdings.get ⟨i, hi⟩), ?_, ?_, ?_⟩
  · simp only [okOutput]
    rw [List.get?_eq_getElem?, List.getElem?_map, List.getElem?_eq_getElem hi]
    rfl
  · rw [assetImpact_dollarChange, habs]
    simp
  · rw [assetImpact_stressedValue, assetImpact_originalValue, habs]
    simp

/-- Witness for C3: "Gold" is absent from the 2008 scenario's factor map. -/
theorem claim3_zero_factor_passthrough_witness :
    List.lookup "2008_crisis" stressScenarios =
      some { name := "2008 Financial Crisis"
             description := "Peak-to-trough decline during 2008-2009"
             factors :=
               [ ("US Large Cap Equity", -37.0)
               , ("US Small Cap Equity", -33.8)
               , ("International Equity", -43.4)
               , ("Bonds", 5.2)
               , ("REITs", -37.7) ] } ∧
    (∃ imp,
      (calculateStressTest "2008_crisis"
          [{ asset := "Gold", allocation := 10, volatility := 1, beta := 0 }]
          500).toOption.bind (fun o => o.stressResults.get? 0) = some imp ∧
      imp.dollarChange = 0 ∧ imp.stressedValue = imp.originalValue) := by
  have hsc : List.lookup "2008_crisis" stressScenarios =
      some { name := "2008 Financial Crisis"
             description := "Peak-to-trough decline during 2008-2009"
             factors :=
               [ ("US Large Cap Equity", -37.0)
               , ("US Small Cap Equity", -33.8)
               , ("International Equity", -43.4)
               , ("Bonds", 5.2)
               , ("REITs", -37.7) ] } := by
    simp [stressScenarios, List.lookup]
  have h := calculateStressTest_ok "2008_crisis" _
    [{ asset := "Gold", allocation := 10, volatility := 1, beta := 0 }] 500 hsc
  obtain ⟨imp, h1, h2, h3⟩ := claim3_zero_factor_passthrough _ _ _ _ _ hsc h 0
    (by simp) (by simp [List.lookup])
  exact ⟨hsc, imp, by rw [h]; simpa using h1, h2, h3⟩

/-- C10: each row's `percentChange` is the scenario's raw factor for that
asset name (0 when absent), independent of allocation and base value. -/
theorem claim10_percentChange_raw_factor (key : String) (sc : Scenario)
    (holdings : List AssetHolding) (pv : ℚ) (out : StressOutput)
    (hsc : List.lookup key stressScenarios = some sc)
    (h : calculateStressTest key holdings pv = .ok out)
    (i : ℕ) (hi : i < holdings.length) :
    ∃ imp, out.stressResults.get? i = some imp ∧
      imp.percentChange =
        (List.lookup (holdings.get ⟨i, hi⟩).asset sc.factors).getD 0 := by
  rw [calculateStressTest_ok key sc holdings pv hsc] at h
  obtain rfl : out = okOutput sc holdings pv := (Except.ok.inj h).symm
  refine ⟨assetImpact sc pv (holdings.get ⟨i, hi⟩), ?_, ?_⟩
  · simp only [okOutput]
    rw [List.get?_eq_getElem?, List.getElem?_map, List.getElem?_eq_getElem hi]
    rfl
  · exact assetImpact_percentChange sc pv _

/-- Witness for C10: a zero-value REITs holding still reports the raw +10
factor of the inflation scenario. -/
theorem claim10_percentChange_raw_factor_witness :
    List.lookup "inflation_shock" stressScenarios =
      some { name := "Inflation Shock"
             description := "Persistent high inflation scenario"
             factors :=
               [ ("US Large Cap Equity", -20.0)
               , ("US Small Cap Equity", -25.0)
               , ("International Equity", -22.0)
               , ("Bonds", -15.0)
               , ("REITs", 10.0) ] } ∧
    (∃ imp,
      (calculateStressTest "inflation_shock"
          [{ asset := "REITs", allocation := 0, volatility := 24, beta := 0.8 }]
          100).toOption.bind (fun o => o.stressResults.get? 0) = some imp ∧
      imp.percentChange = 10) := by
  have hsc : List.lookup "inflation_shock" stressScenarios =
      some { name := "Inflation Shock"
             description := "Persistent high inflation scenario"
             factors :=
               [ ("US Large Cap Equity", -20.0)
               , ("US Small Cap Equity", -25.0)
               , ("International Equity", -22.0)
               , ("Bonds", -15.0)
               , ("REITs", 10.0) ] } := by
    simp [stressScenarios, List.lookup]
  have h := calculateStressTest_ok "inflation_shock" _
    [{ asset := "REITs", allocation := 0, volatility := 24, beta := 0.8 }] 100 hsc
  obtain ⟨imp, h1, h2⟩ := claim10_percentChange_raw_factor _ _ _ _ _ hsc h 0
    (by simp)
  refine ⟨hsc, imp, by rw [h]; simpa using h1, ?_⟩
  rw [h2]
  simp [List.lookup]
  norm_num

/-- C9: an empty holdings list with a valid scenario key succeeds with the
all-zero summary and empty sentinels, and `finalValue = pv`. -/
theorem claim9_empty_portfolio_ok (key : String) (sc : Scenario) (pv : ℚ)
    (hsc : List.lookup key stressScenarios = some sc) :
    calculateStressTest key [] pv =
      .ok { stressResults := []
            summaryResults :=
              { totalLoss := 0
                totalLossPercent := 0
                worstAsset := { name := "", loss := 0 }
                bestAsset := { name := "", gain := 0 }
                finalValue := pv } } := by
  rw [calculateStressTest_ok key sc [] pv hsc]
  simp [okOutput, scanWorst, scanBest]

/-- Witness for C9 at the COVID scenario with base value 777. -/
theorem claim9_empty_portfolio_ok_witness :
    calculateStressTest "2020_covid" [] 777 =
      .ok { stressResults := []
            summaryResults :=
              { totalLoss := 0
                totalLossPercent := 0
                worstAsset := { name := "", loss := 0 }
                bestAsset := { name := "", gain := 0 }
                finalValue := 777 } } :=
  claim9_empty_portfolio_ok "2020_covid"
    { name := "COVID-19 Crash (Q1 2020)"
      description := "Rapid market decline in March 2020"
      factors :=
        [ ("US Large Cap Equity", -19.6)
        , ("US Small Cap Equity", -30.6)
        , ("International Equity", -23.4)
        , ("Bonds", 8.7)
        , ("REITs", -20.2) ] } 777
    (by simp [stressScenarios, List.lookup])

/-- C8 counterexample: it is not the case that every unknown scenario key
makes the computation fail — with an empty holdings list the failing
dereference is never executed and the run succeeds. -/
theorem claim8_counterexample :
    ¬ (∀ (key : String) (holdings : List AssetHolding) (pv : ℚ),
        List.lookup key stressScenarios = none →
        calculateStressTest key holdings pv = .error .unknownScenarioKind) := by
  intro hclaim
  have hnone : List.lookup "not_a_real_scenario" stressScenarios = none := by
    simp [stressScenarios, List.lookup]
  have hfail := hclaim "not_a_real_scenario" [] 1000 hnone
  have hok : calculateStressTest "not_a_real_scenario" [] 1000 =
      .ok (emptyOkOutput 1000) := by
    simp [calculateStressTest, hnone, emptyOkOutput]
  rw [hok] at hfail
  exact Except.noConfusion hfail

/-- C8 amended: an unknown scenario key makes the computation fail with
`unknownScenarioKind` whenever the holdings list is nonempty. -/
theorem claim8_unknown_key_error (key : String) (holdings : List AssetHolding)
    (pv : ℚ) (hnone : List.lookup key stressScenarios = none)
    (hne : holdings ≠ []) :
    calculateStressTest key holdings pv = .error .unknownScenarioKind := by
  cases holdings with
  | nil => exact absurd rfl hne
  | cons a as => simp [calculateStressTest, hnone]

/-- Witness for amended C8 on a one-asset portfolio. -/
theorem claim8_unknown_key_error_witness :
    calculateStressTest "not_a_real_scenario"
        [{ asset := "Gold", allocation := 10, volatility := 1, beta := 0 }] 5 =
      .error .unknownScenarioKind :=
  claim8_unknown_key_error "not_a_real_scenario"
    [{ asset := "Gold", allocation := 10, volatility := 1, beta := 0 }] 5
    (by simp [stressScenarios, List.lookup]) (by simp)

/-- `scanBest` keeps its incumbent when no row's `dollarChange` exceeds the
incumbent's gain. -/
theorem scanBest_id (b : BestAsset) :
    ∀ ls : List AssetImpact,
      (∀ imp ∈ ls, ¬ b.gain < imp.dollarChange) → scanBest b ls = b
  | [], _ => rfl
  | imp :: rest, h => by
    rw [scanBest]
    rw [if_neg (h imp (List.mem_cons_self imp rest))]
    exact scanBest_id b rest fun i hi => h i (List.mem_cons_of_mem imp hi)

/-- C4 counterexample: with a negative base value, a negative factor produces
a positive `dollarChange`, so `bestAsset` leaves the sentinel even though
every asset's factor is negative. -/
theorem claim4_counterexample :
    ¬ (∀ (key : String) (sc : Scenario) (holdings : List AssetHolding)
        (pv : ℚ) (out : StressOutput),
        List.lookup key stressScenarios = some sc →
        calculateStressTest key holdings pv = .ok out →
        (∀ a ∈ holdings, ∃ f, List.lookup a.asset sc.factors = some f ∧ f < 0) →
        out.summaryResults.bestAsset = { name := "", gain := 0 }) := by
  intro hclaim
  have hsc : List.lookup "2008_crisis" stressScenarios =
      some { name := "2008 Financial Crisis"
             description := "Peak-to-trough decline during 2008-2009"
             factors :=
               [ ("US Large Cap Equity", -37.0)
               , ("US Small Cap Equity", -33.8)
               , ("International Equity", -43.4)
               , ("Bonds", 5.2)
               , ("REITs", -37.7) ] } := by
    simp [stressScenarios, List.lookup]
  have hok : calculateStressTest "2008_crisis"
      [{ asset := "US Large Cap Equity", allocation := 40, volatility := 16,
         beta := 1.0 }] (-1000) =
      .ok { stressResults :=
              [{ asset := "US Large Cap Equity", allocation := 40,
                 originalValue := -400, stressedValue := -252,
                 dollarChange := 148, percentChange := -37,
                 contributionToLoss := -74/5 }]
            summaryResults :=
              { totalLoss := 148, totalLossPercent := -74/5
                worstAsset := { name := "", loss := 0 }
                bestAsset := { name := "US Large Cap Equity", gain := 148 }
                finalValue := -852 } } := by
    simp [calculateStressTest, stressScenarios, initState, stressStep,
      assetImpact, List.lookup]
    norm_num
  have hbest := hclaim "2008_crisis" _ _ (-1000) _ hsc hok ?_
  · simp at hbest
  · intro a ha
    simp only [List.mem_singleton] at ha
    subst ha
    exact ⟨-37, by simp [List.lookup]; norm_num, by norm_num⟩

/-- C4 amended: with a nonnegative base value and nonnegative allocations,
a portfolio in which every asset's scenario factor is negative yields the
empty `bestAsset` sentinel. -/
theorem claim4_best_sentinel (key : String) (sc : Scenario)
    (holdings : List AssetHolding) (pv : ℚ) (out : StressOutput)
    (hsc : List.lookup key stressScenarios = some sc)
    (h : calculateStressTest key holdings pv = .ok out)
    (hpv : 0 ≤ pv)
    (halloc : ∀ a ∈ holdings, 0 ≤ a.allocation)
    (hneg : ∀ a ∈ holdings, ∃ f, List.lookup a.asset sc.factors = some f ∧ f < 0) :
    out.summaryResults.bestAsset = { name := "", gain := 0 } := by
  rw [calculateStressTest_ok key sc holdings pv hsc] at h
  obtain rfl : out = okOutput sc holdings pv := (Except.ok.inj h).symm
  simp only [okOutput]
  apply scanBest_id
  intro imp hmem
  obtain ⟨a, ha, rfl⟩ := List.mem_map.1 hmem
  obtain ⟨f, hf, hfneg⟩ := hneg a ha
  rw [assetImpact_dollarChange, hf]
  simp only [Option.getD_some, not_lt]
  have hval : (0:ℚ) ≤ pv * (a.allocation / 100) :=
    mul_nonneg hpv (div_nonneg (halloc a ha) (by norm_num))
  nlinarith [hval, hfneg]

/-- Witness for amended C4: the interest-rate shock (all factors negative) on
a one-asset Large-Cap portfolio at base value 1000 keeps the sentinel. -/
theorem claim4_best_sentinel_witness :
    calculateStressTest "interest_rate_shock"
        [{ asset := "US Large Cap Equity", allocation := 40, volatility := 16,
           beta := 1.0 }] 1000 =
      .ok { stressResults :=
              [{ asset := "US Large Cap Equity", allocation := 40,
                 originalValue := 400, stressedValue := 340,
                 dollarChange := -60, percentChange := -15,
                 contributionToLoss := -6 }]
            summaryResults :=
              { totalLoss := -60, totalLossPercent := -6
                worstAsset := { name := "US Large Cap Equity", loss := -60 }
                bestAsset := { name := "", gain := 0 }
                finalValue := 940 } } ∧
    ({ stressResults :=
         [{ asset := "US Large Cap Equity", allocation := 40,
            originalValue := 400, stressedValue := 340,
            dollarChange := -60, percentChange := -15,
            contributionToLoss := -6 }]
       summaryResults :=
         { totalLoss := -60, totalLossPercent := -6
           worstAsset := { name := "US Large Cap Equity", loss := -60 }
           bestAsset := { name := "", gain := 0 }
           finalValue := 940 } } : StressOutput).summaryResults.bestAsset =
      { name := "", gain := 0 } := by
  have hsc : List.lookup "interest_rate_shock" stressScenarios =
      some { name := "Interest Rate Shock"
             description := "Hypothetical 300bp rate increase"
             factors :=
               [ ("US Large Cap Equity", -15.0)
               , ("US Small Cap Equity", -20.0)
               , ("International Equity", -18.0)
               , ("Bonds", -12.0)
               , ("REITs", -25.0) ] } := by
    simp [stressScenarios, List.lookup]
  have hok : calculateStressTest "interest_rate_shock"
      [{ asset := "US Large Cap Equity", allocation := 40, volatility := 16,
         beta := 1.0 }] 1000 =
      .ok { stressResults :=
              [{ asset := "US Large Cap Equity", allocation := 40,
                 originalValue := 400, stressedValue := 340,
                 dollarChange := -60, percentChange := -15,
                 contributionToLoss := -6 }]
            summaryResults :=
              { totalLoss := -60, totalLossPercent := -6
                worstAsset := { name := "US Large Cap Equity", loss := -60 }
                bestAsset := { name := "", gain := 0 }
                finalValue := 940 } } := by
    simp [calculateStressTest, stressScenarios, initState, stressStep,
      assetImpact, List.lookup]
    norm_num
  refine ⟨hok, ?_⟩
  exact claim4_best_sentinel "interest_rate_shock" _ _ 1000 _ hsc hok
    (by norm_num)
    (by intro a ha; simp only [List.mem_singleton] at ha; subst ha; norm_num)
    (by intro a ha; simp only [List.mem_singleton] at ha; subst ha;
        exact ⟨-15, by simp [List.lookup]; norm_num, by norm_num⟩)

/-- The point at index `i` of the recovery data, for `i < 61`. -/
theorem recoveryData_get (fv pv : ℚ) (i : ℕ) (h : i < 61) :
    (recoveryData fv pv).get? i =
      some { months := i
             value := fv * (1 + (0.08 : ℚ) / 12) ^ i
             recovered := decide (pv ≤ fv * (1 + (0.08 : ℚ) / 12) ^ i) } := by
  rw [recoveryData, List.get?_eq_getElem?, List.getElem?_map,
    List.getElem?_range h]
  rfl

/-- C6: the recovery timeline is exactly the 61 points for months 0..60,
each with `value = finalValue * (1 + 0.08/12)^month` and `recovered` true
exactly when the projected value has reached the pre-shock base value; no
point lies beyond the 60-month horizon. -/
theorem claim6_recovery_timeline (fv pv : ℚ) :
    (recoveryData fv pv).length = 61 ∧
    (∀ p ∈ recoveryData fv pv, p.months ≤ 60 ∧
      p.value = fv * (1 + (0.08 : ℚ) / 12) ^ p.months ∧
      (p.recovered = true ↔ pv ≤ p.value)) ∧
    (∀ i, i < 61 →
      (recoveryData fv pv).get? i =
        some { months := i
               value := fv * (1 + (0.08 : ℚ) / 12) ^ i
               recovered := decide (pv ≤ fv * (1 + (0.08 : ℚ) / 12) ^ i) }) := by
  refine ⟨by simp [recoveryData], ?_, fun i hi => recoveryData_get fv pv i hi⟩
  intro p hp
  rw [recoveryData] at hp
  obtain ⟨m, hm, rfl⟩ := List.mem_map.1 hp
  rw [List.mem_range] at hm
  refine ⟨(by omega : m ≤ 60), rfl, ?_⟩
  simp

/-- Witness for C6 at month 1 of a concrete run. -/
theorem claim6_recovery_timeline_witness :
    (1 < 61) ∧
    (recoveryData 100 90).get? 1 =
      some { months := 1
             value := 100 * (1 + (0.08 : ℚ) / 12) ^ 1
             recovered := decide ((90 : ℚ) ≤ 100 * (1 + (0.08 : ℚ) / 12) ^ 1) } :=
  ⟨by norm_num, (claim6_recovery_timeline 100 90).2.2 1 (by norm_num)⟩

/-- C7 counterexample: with `finalValue = 0` every projected value is 0, so
the timeline is not strictly increasing even though the hard-coded growth
rate 0.08 is positive. -/
theorem claim7_counterexample :
    ¬ (∀ (fv pv : ℚ) (i j : ℕ) (p q : RecoveryPoint),
        i < j →
        (recoveryData fv pv).get? i = some p →
        (recoveryData fv pv).get? j = some q →
        p.value < q.value) := by
  intro hclaim
  have h0 := recoveryData_get 0 1000 0 (by norm_num)
  have h1 := recoveryData_get 0 1000 1 (by norm_num)
  have := hclaim 0 1000 0 1 _ _ (by norm_num) h0 h1
  simp at this

/-- C7 amended: when `finalValue` is positive (the growth rate is the
hard-coded positive 0.08), projected values are strictly increasing in the
month, and once a point has `recovered = true` every later point also has
`recovered = true` with its value at or above the target — equivalently,
`recovered` is false at every month before the first recovered month. -/
theorem claim7_recovery_monotone (fv pv : ℚ) (hfv : 0 < fv) :
    (∀ (i j : ℕ) (p q : RecoveryPoint), i < j →
      (recoveryData fv pv).get? i = some p →
      (recoveryData fv pv).get? j = some q →
      p.value < q.value) ∧
    (∀ (i j : ℕ) (p q : RecoveryPoint), i ≤ j →
      (recoveryData fv pv).get? i = some p →
      (recoveryData fv pv).get? j = some q →
      p.recovered = true → q.recovered = true ∧ pv ≤ q.value) := by
  have hr : (1 : ℚ) < 1 + (0.08 : ℚ) / 12 := by norm_num
  constructor
  · intro i j p q hij hp hq
    have hi : i < 61 := by
      have := List.get?_eq_some.1 hp
      obtain ⟨hlen, -⟩ := this
      simpa [recoveryData] using hlen
    have hj : j < 61 := by
      have := List.get?_eq_some.1 hq
      obtain ⟨hlen, -⟩ := this
      simpa [recoveryData] using hlen
    rw [recoveryData_get fv pv i hi] at hp
    rw [recoveryData_get fv pv j hj] at hq
    obtain rfl := (Option.some.inj hp).symm
    obtain rfl := (Option.some.inj hq).symm
    exact mul_lt_mul_of_pos_left (pow_lt_pow_right₀ hr hij) hfv
  · intro i j p q hij hp hq hrec
    have hi : i < 61 := by
      have := List.get?_eq_some.1 hp
      obtain ⟨hlen, -⟩ := this
      simpa [recoveryData] using hlen
    have hj : j < 61 := by
      have := List.get?_eq_some.1 hq
      obtain ⟨hlen, -⟩ := this
      simpa [recoveryData] using hlen
    rw [recoveryData_get fv pv i hi] at hp
    rw [recoveryData_get fv pv j hj] at hq
    obtain rfl := (Option.some.inj hp).symm
    obtain rfl := (Option.some.inj hq).symm
    simp only [decide_eq_true_eq] at hrec
    have hmono : fv * (1 + (0.08 : ℚ) / 12) ^ i ≤
        fv * (1 + (0.08 : ℚ) / 12) ^ j :=
      mul_le_mul_of_nonneg_left (pow_le_pow_right₀ (le_of_lt hr) hij)
        (le_of_lt hfv)
    have hq' : pv ≤ fv * (1 + (0.08 : ℚ) / 12) ^ j := le_trans hrec hmono
    exact ⟨by simpa using hq', hq'⟩

/-- Witness for amended C7: at `finalValue = 1000`, the projected value at
month 1 strictly exceeds the one at month 0. -/
theorem claim7_recovery_monotone_witness :
    (0 : ℚ) < 1000 ∧
    ({ months := 0, value := 1000 * (1 + (0.08 : ℚ) / 12) ^ 0,
       recovered := decide ((900 : ℚ) ≤ 1000 * (1 + (0.08 : ℚ) / 12) ^ 0) } :
        RecoveryPoint).value <
      ({ months := 1, value := 1000 * (1 + (0.08 : ℚ) / 12) ^ 1,
         recovered := decide ((900 : ℚ) ≤ 1000 * (1 + (0.08 : ℚ) / 12) ^ 1) } :
          RecoveryPoint).value :=
  ⟨by norm_num,
    (claim7_recovery_monotone 1000 900 (by norm_num)).1 0 1 _ _
      (by norm_num) (recoveryData_get 1000 900 0 (by norm_num))
      (recoveryData_get 1000 900 1 (by norm_num))⟩

/-- `find?` only depends on the predicate's values on the list's members. -/
theorem list_find?_congr {α : Type} (p q : α → Bool) :
    ∀ l : List α, (∀ a ∈ l, p a = q a) → l.find? p = l.find? q
  | [], _ => rfl
  | x :: xs, h => by
    have hx := h x (List.mem_cons_self x xs)
    cases hqx : q x with
    | true =>
      rw [List.find?_cons_of_pos _ (by rw [hx, hqx]),
        List.find?_cons_of_pos _ hqx]
    | false =>
      rw [List.find?_cons_of_neg _ (by rw [hx, hqx]; exact Bool.false_ne_true),
        List.find?_cons_of_neg _ (by rw [hqx]; exact Bool.false_ne_true)]
      exact list_find?_congr p q xs fun a ha => h a (List.mem_cons_of_mem x ha)

/-- Every nonempty list of rows has a row of minimal `dollarChange`. -/
theorem exists_min_dollarChange :
    ∀ ls : List AssetImpact, ls ≠ [] →
      ∃ m ∈ ls, ∀ j ∈ ls, m.dollarChange ≤ j.dollarChange
  | [], h => absurd rfl h
  | x :: xs, _ => by
    cases xs with
    | nil =>
      exact ⟨x, List.mem_cons_self x [], by
        intro j hj
        rw [List.mem_singleton] at hj
        rw [hj]⟩
    | cons y ys =>
      obtain ⟨m, hm, hmin⟩ := exists_min_dollarChange (y :: ys) (by simp)
      by_cases hcmp : m.dollarChange ≤ x.dollarChange
      · refine ⟨m, List.mem_cons_of_mem x hm, ?_⟩
        intro j hj
        rcases List.mem_cons.1 hj with rfl | hj'
        · exact hcmp
        · exact hmin j hj'
      · refine ⟨x, List.mem_cons_self x (y :: ys), ?_⟩
        intro j hj
        rcases List.mem_cons.1 hj with rfl | hj'
        · exact le_refl _
        · exact le_trans (le_of_lt (not_le.1 hcmp)) (hmin j hj')

/-- The tail-recursive `scanWorst` computes the first row that strictly
improves on the incumbent and is minimal among all rows; otherwise it keeps
the incumbent. -/
theorem scanWorst_eq :
    ∀ (ls : List AssetImpact) (w : WorstAsset),
      scanWorst w ls =
        match ls.find? (isStrictMin w.loss ls) with
        | some imp => { name := imp.asset, loss := imp.dollarChange }
        | none => w
  | [], w => by rfl
  | x :: rest, w => by
    rw [scanWorst]
    by_cases hx : x.dollarChange < w.loss
    · rw [if_pos hx, scanWorst_eq rest _]
      dsimp only
      by_cases hmin : ∀ j ∈ rest, x.dollarChange ≤ j.dollarChange
      · have hfx : isStrictMin w.loss (x :: rest) x = true := by
          simp only [isStrictMin, Bool.and_eq_true, decide_eq_true_eq,
            List.all_eq_true, List.mem_cons]
          refine ⟨hx, ?_⟩
          intro k hk
          rcases hk with rfl | hk'
          · exact le_refl _
          · exact hmin k hk'
        rw [List.find?_cons_of_pos _ hfx]
        have hnone : rest.find? (isStrictMin x.dollarChange rest) = none := by
          rw [List.find?_eq_none]
          intro imp himp hcontra
          simp only [isStrictMin, Bool.and_eq_true, decide_eq_true_eq,
            List.all_eq_true] at hcontra
          exact absurd hcontra.1 (not_lt.2 (hmin imp himp))
        rw [hnone]
      · push_neg at hmin
        obtain ⟨j, hj, hjx⟩ := hmin
        have hfx : ¬ (isStrictMin w.loss (x :: rest) x = true) := by
          simp only [isStrictMin, Bool.and_eq_true, decide_eq_true_eq,
            List.all_eq_true, List.mem_cons]
          rintro ⟨-, hallx⟩
          exact absurd (hallx j (Or.inr hj)) (not_le.2 hjx)
        rw [List.find?_cons_of_neg _ hfx]
        have hcongr : rest.find? (isStrictMin x.dollarChange rest) =
            rest.find? (isStrictMin w.loss (x :: rest)) := by
          apply list_find?_congr
          intro imp himp
          by_cases hall : ∀ k ∈ rest, imp.dollarChange ≤ k.dollarChange
          · by_cases himpx : imp.dollarChange < x.dollarChange
            · have h1 : imp.dollarChange < w.loss := lt_trans himpx hx
              simp only [isStrictMin, List.all_cons]
              simp [himpx, h1, le_of_lt himpx]
            · exfalso
              have hxi : x.dollarChange ≤ imp.dollarChange := not_lt.1 himpx
              have h2 : imp.dollarChange ≤ j.dollarChange := hall j hj
              have h3 : j.dollarChange < imp.dollarChange :=
                lt_of_lt_of_le hjx hxi
              exact absurd h2 (not_le.2 h3)
          · have hallb :
                (rest.all fun k =>
                  decide (imp.dollarChange ≤ k.dollarChange)) = false := by
              rw [Bool.eq_false_iff]
              intro hab
              apply hall
              intro k hk
              simpa using List.all_eq_true.1 hab k hk
            simp only [isStrictMin, List.all_cons]
            simp [hallb]
        rw [hcongr]
        cases hfind : rest.find? (isStrictMin w.loss (x :: rest)) with
        | some imp => rfl
        | none =>
          exfalso
          obtain ⟨m, hm, hminm⟩ :=
            exists_min_dollarChange rest (List.ne_nil_of_mem hj)
          have hmordered : m.dollarChange < w.loss :=
            lt_of_le_of_lt (le_trans (hminm j hj) (le_of_lt hjx)) hx
          have hsm : isStrictMin w.loss (x :: rest) m = true := by
            simp only [isStrictMin, Bool.and_eq_true, decide_eq_true_eq,
              List.all_eq_true, List.mem_cons]
            refine ⟨hmordered, ?_⟩
            rintro k (rfl | hk)
            · simp [le_trans (hminm j hj) (le_of_lt hjx)]
            · simp [hminm k hk]
          exact absurd hsm (List.find?_eq_none.1 hfind m hm)
    · rw [if_neg hx, scanWorst_eq rest w]
      have hfx : ¬ (isStrictMin w.loss (x :: rest) x = true) := by
        simp [isStrictMin, hx]
      rw [List.find?_cons_of_neg _ hfx]
      have hcongr : rest.find? (isStrictMin w.loss rest) =
          rest.find? (isStrictMin w.loss (x :: rest)) := by
        apply list_find?_congr
        intro imp himp
        by_cases himpw : imp.dollarChange < w.loss
        · have : imp.dollarChange ≤ x.dollarChange :=
            le_trans (le_of_lt himpw) (not_lt.1 hx)
          simp only [isStrictMin, List.all_cons]
          simp [himpw, this]
        · simp only [isStrictMin, List.all_cons]
          simp [himpw]
      rw [hcongr]

/-- C5: the `worstAsset` scan — sentinel incumbent, strict-improvement
replacement — computes the first row attaining the minimal negative
`dollarChange` (ties keep the earlier asset), and stays at the empty sentinel
when no row's `dollarChange` is negative. -/
theorem claim5_worst_scan (key : String) (holdings : List AssetHolding)
    (pv : ℚ) (out : StressOutput)
    (h : calculateStressTest key holdings pv = .ok out) :
    out.summaryResults.worstAsset = worstAssetSpec out.stressResults ∧
    ((∀ imp ∈ out.stressResults, 0 ≤ imp.dollarChange) →
      out.summaryResults.worstAsset = { name := "", loss := 0 }) := by
  have hspec : ∀ impacts : List AssetImpact,
      scanWorst { name := "", loss := 0 } impacts = worstAssetSpec impacts := by
    intro impacts
    rw [scanWorst_eq]
    rfl
  have hsentinel : ∀ impacts : List AssetImpact,
      (∀ imp ∈ impacts, 0 ≤ imp.dollarChange) →
      worstAssetSpec impacts = { name := "", loss := 0 } := by
    intro impacts hnn
    have hnone : impacts.find? (isStrictMin 0 impacts) = none := by
      rw [List.find?_eq_none]
      intro imp himp hcontra
      simp only [isStrictMin, Bool.and_eq_true, decide_eq_true_eq] at hcontra
      exact absurd hcontra.1 (not_lt.2 (hnn imp himp))
    simp [worstAssetSpec, hnone]
  rcases ok_cases h with ⟨sc, -, rfl⟩ | ⟨-, -, rfl⟩
  · refine ⟨?_, ?_⟩
    · simp only [okOutput]
      exact hspec _
    · intro hnn
      simp only [okOutput] at hnn ⊢
      rw [hspec _]
      exact hsentinel _ hnn
  · exact ⟨rfl, fun _ => rfl⟩

/-- Witness for C5: the interest-rate shock over the default holdings, where
the scan reports the first minimal row ("US Large Cap Equity", -60). -/
theorem claim5_worst_scan_witness :
    calculateStressTest "interest_rate_shock" defaultHoldings 1000 =
      .ok { stressResults :=
              [{ asset := "US Large Cap Equity", allocation := 40,
                 originalValue := 400, stressedValue := 340,
                 dollarChange := -60, percentChange := -15,
                 contributionToLoss := -6 },
               { asset := "US Small Cap Equity", allocation := 10,
                 originalValue := 100, stressedValue := 80,
                 dollarChange := -20, percentChange := -20,
                 contributionToLoss := -2 },
               { asset := "International Equity", allocation := 20,
                 originalValue := 200, stressedValue := 164,
                 dollarChange := -36, percentChange := -18,
                 contributionToLoss := -18/5 },
               { asset := "Bonds", allocation := 25,
                 originalValue := 250, stressedValue := 220,
                 dollarChange := -30, percentChange := -12,
                 contributionToLoss := -3 },
               { asset := "REITs", allocation := 5,
                 originalValue := 50, stressedValue := 75/2,
                 dollarChange := -25/2, percentChange := -25,
                 contributionToLoss := -5/4 }]
            summaryResults :=
              { totalLoss := -317/2, totalLossPercent := -317/20
                worstAsset := { name := "US Large Cap Equity", loss := -60 }
                bestAsset := { name := "", gain := 0 }
                finalValue := 1683/2 } } ∧
    ({ name := "US Large Cap Equity", loss := -60 } : WorstAsset) =
      worstAssetSpec
        [{ asset := "US Large Cap Equity", allocation := 40,
           originalValue := 400, stressedValue := 340,
           dollarChange := -60, percentChange := -15,
           contributionToLoss := -6 },
         { asset := "US Small Cap Equity", allocation := 10,
           originalValue := 100, stressedValue := 80,
           dollarChange := -20, percentChange := -20,
           contributionToLoss := -2 },
         { asset := "International Equity", allocation := 20,
           originalValue := 200, stressedValue := 164,
           dollarChange := -36, percentChange := -18,
           contributionToLoss := -18/5 },
         { asset := "Bonds", allocation := 25,
           originalValue := 250, stressedValue := 220,
           dollarChange := -30, percentChange := -12,
           contributionToLoss := -3 },
         { asset := "REITs", allocation := 5,
           originalValue := 50, stressedValue := 75/2,
           dollarChange := -25/2, percentChange := -25,
           contributionToLoss := -5/4 }] := by
  have hok : calculateStressTest "interest_rate_shock" defaultHoldings 1000 =
      .ok { stressResults :=
              [{ asset := "US Large Cap Equity", allocation := 40,
                 originalValue := 400, stressedValue := 340,
                 dollarChange := -60, percentChange := -15,
                 contributionToLoss := -6 },
               { asset := "US Small Cap Equity", allocation := 10,
                 originalValue := 100, stressedValue := 80,
                 dollarChange := -20, percentChange := -20,
                 contributionToLoss := -2 },
               { asset := "International Equity", allocation := 20,
                 originalValue := 200, stressedValue := 164,
                 dollarChange := -36, percentChange := -18,
                 contributionToLoss := -18/5 },
               { asset := "Bonds", allocation := 25,
                 originalValue := 250, stressedValue := 220,
                 dollarChange := -30, percentChange := -12,
                 contributionToLoss := -3 },
               { asset := "REITs", allocation := 5,
                 originalValue := 50, stressedValue := 75/2,
                 dollarChange := -25/2, percentChange := -25,
                 contributionToLoss := -5/4 }]
            summaryResults :=
              { totalLoss := -317/2, totalLossPercent := -317/20
                worstAsset := { name := "US Large Cap Equity", loss := -60 }
                bestAsset := { name := "", gain := 0 }
                finalValue := 1683/2 } } := by
    simp [calculateStressTest, defaultHoldings, stressScenarios, initState,
      stressStep, assetImpact, List.lookup]
    norm_num
  exact ⟨hok, (claim5_worst_scan _ _ _ _ hok).1⟩

/-- Spec §8 end-to-end example, checking the embedding against the worked
numbers: baseValue 1,000,000 under "2008_crisis" gives totalLoss -274,450,
finalValue 725,550, worst "US Large Cap Equity" (-148,000), best "Bonds"
(+13,000). -/
theorem end_to_end_2008_sanity :
    (calculateStressTest "2008_crisis" defaultHoldings 1000000).map
      (fun o => (o.summaryResults.totalLoss, o.summaryResults.finalValue,
        o.summaryResults.worstAsset, o.summaryResults.bestAsset)) =
    .ok (-274450, 725550,
      { name := "US Large Cap Equity", loss := -148000 },
      { name := "Bonds", gain := 13000 }) := by
  simp [calculateStressTest, defaultHoldings, stressScenarios, initState,
    stressStep, assetImpact, List.lookup, Except.map]
  norm_num

end StressTester
